/-
  Verification of the command-validation and execution core of the
  aws-mcp-server repository (Python), via a shallow embedding in Lean 4.

  The embedding translates the relevant Python functions from
    src/src/aws_mcp_server/utils/cli_executor.py
    src/src/aws_mcp_server/tools.py
    src/src/aws_mcp_server/utils/formatter.py
  into pure Lean functions.  Subprocess interaction is modelled by passing
  the observable behaviour of the child processes (spawn success, timeout,
  exit code, decoded stdout/stderr text) as explicit arguments; Python
  exceptions are modelled with `Except`.
-/
import Mathlib

deriving instance DecidableEq for Except

namespace AwsMcp

/-! ## Python string primitives

Models of the Python `str` operations used by the embedded code.  Python
strings are sequences of code points, which matches Lean's `String` /
`List Char`.  `str.strip`/`lstrip` (no argument) strip ASCII whitespace;
the Unicode whitespace code points Python would additionally strip do not
occur in any input considered here. -/

/-- The single-quote character `'` (code point 39). -/
def squoteChar : Char := Char.ofNat 39

/-- The double-quote character `"` (code point 34). -/
def dquoteChar : Char := Char.ofNat 34

/-- The backslash character `\` (code point 92). -/
def bslashChar : Char := Char.ofNat 92

/-- The pipe character `|` (code point 124). -/
def pipeChar : Char := Char.ofNat 124

/-- Python whitespace for `str.strip()` / `str.split()`:
space, tab, newline, carriage return, vertical tab, form feed. -/
def isPyWs (c : Char) : Bool :=
  c = ' ' || c = Char.ofNat 9 || c = Char.ofNat 10 || c = Char.ofNat 13 ||
  c = Char.ofNat 11 || c = Char.ofNat 12

/-- Python `s.strip()`. -/
def pyStrip (s : String) : String :=
  String.mk (((s.data.dropWhile isPyWs).reverse.dropWhile isPyWs).reverse)

/-- Python `s.lstrip()`. -/
def pyLstrip (s : String) : String :=
  String.mk (s.data.dropWhile isPyWs)

/-- Python `s.lower()` (ASCII range; no input here contains a non-ASCII
cased letter). -/
def pyLower (s : String) : String :=
  String.mk (s.data.map Char.toLower)

/-- Python `s.startswith(pre)`. -/
def pyStartswith (s pre : String) : Bool :=
  decide (pre.data <+: s.data)

/-- Python `sub in s` (substring containment). -/
def pyContains (s sub : String) : Bool :=
  decide (sub.data <:+: s.data)

/-- Helper for `pySplitWs`: splits on whitespace runs, dropping empty pieces. -/
def pySplitWsCore : List Char → List Char → List String
  | [], acc => if acc.isEmpty then [] else [String.mk acc]
  | c :: cs, acc =>
    if isPyWs c then
      if acc.isEmpty then pySplitWsCore cs []
      else String.mk acc :: pySplitWsCore cs []
    else pySplitWsCore cs (acc ++ [c])

/-- Python `s.split()` (split on whitespace runs, dropping empty pieces). -/
def pySplitWs (s : String) : List String :=
  pySplitWsCore s.data []

/-- Helper for `pySplitNewline`. -/
def pySplitNewlineCore : List Char → List Char → List String
  | [], acc => [String.mk acc]
  | c :: cs, acc =>
    if c = Char.ofNat 10 then String.mk acc :: pySplitNewlineCore cs []
    else pySplitNewlineCore cs (acc ++ [c])

/-- Python `s.split(chr(10))`, splitting on every newline (empty pieces kept). -/
def pySplitNewline (s : String) : List String :=
  pySplitNewlineCore s.data []

/-! ## shlex.split

Model of Python `shlex.split` (POSIX mode, `whitespace_split=True`), the
tokenizer used by `validate_aws_command`, `validate_unix_command` and
`execute_piped_command` (spec §4.1).  Scanner modes: between tokens,
inside a word, inside single quotes, inside double quotes, after a
backslash outside quotes, after a backslash inside double quotes.
`shlex.split` raises `ValueError` on an unterminated quote
("No closing quotation") or a trailing escape ("No escaped character");
this is modelled with `Except String`. -/

inductive ShlexMode where
  | ws    : ShlexMode
  | word  : ShlexMode
  | squo  : ShlexMode
  | dquo  : ShlexMode
  | escO  : ShlexMode
  | escD  : ShlexMode
deriving DecidableEq, Repr

/-- Core scanner of `shlex.split`: remaining characters, current mode,
accumulated characters of the current token. -/
def shlexCore : List Char → ShlexMode → List Char → Except String (List String)
  | [], m, acc =>
    match m with
    | .ws => .ok []
    | .word => .ok [String.mk acc]
    | .squo => .error "No closing quotation"
    | .dquo => .error "No closing quotation"
    | .escO => .error "No escaped character"
    | .escD => .error "No escaped character"
  | c :: cs, m, acc =>
    match m with
    | .ws =>
      if isPyWs c then shlexCore cs .ws []
      else if c = squoteChar then shlexCore cs .squo acc
      else if c = dquoteChar then shlexCore cs .dquo acc
      else if c = bslashChar then shlexCore cs .escO acc
      else shlexCore cs .word (acc ++ [c])
    | .word =>
      if isPyWs c then (shlexCore cs .ws []).map (fun ts => String.mk acc :: ts)
      else if c = squoteChar then shlexCore cs .squo acc
      else if c = dquoteChar then shlexCore cs .dquo acc
      else if c = bslashChar then shlexCore cs .escO acc
      else shlexCore cs .word (acc ++ [c])
    | .squo =>
      if c = squoteChar then shlexCore cs .word acc
      else shlexCore cs .squo (acc ++ [c])
    | .dquo =>
      if c = dquoteChar then shlexCore cs .word acc
      else if c = bslashChar then shlexCore cs .escD acc
      else shlexCore cs .dquo (acc ++ [c])
    | .escO => shlexCore cs .word (acc ++ [c])
    | .escD =>
      if c = dquoteChar || c = bslashChar then shlexCore cs .dquo (acc ++ [c])
      else shlexCore cs .dquo (acc ++ [bslashChar, c])

/-- Python `shlex.split(s)`. -/
def shlexSplit (s : String) : Except String (List String) :=
  shlexCore s.data .ws []

/-! ## Shared result and error types

`CommandResult` is the TypedDict `{status, output}` defined identically in
`utils/cli_executor.py` and `tools.py`.  `PyError` models the Python
exceptions that can escape the embedded functions: `CommandValidationError`,
`CommandExecutionError` (both from `utils/cli_executor.py`) and the
`ValueError` that `shlex.split` raises on malformed quoting. -/

structure CommandResult where
  status : String
  output : String
deriving DecidableEq, Repr

inductive PyError where
  | validationError : String → PyError
  | executionError : String → PyError
  | valueError : String → PyError
deriving DecidableEq, Repr

/-! ## utils/cli_executor.py -/

namespace CliExecutor

/-- Default of the `AWS_MCP_TIMEOUT` environment variable
(`config.py` line 25). -/
def DEFAULT_TIMEOUT : Nat := 30

/-- Default of the `AWS_MCP_MAX_OUTPUT` environment variable
(`config.py` line 26).  The execution models below take the configured
maximum output size as an explicit argument. -/
def MAX_OUTPUT_SIZE : Nat := 10000

/-- The `auth_error_patterns` list of `is_auth_error`
(`utils/cli_executor.py` lines 91–98). -/
def auth_error_patterns : List String :=
  ["Unable to locate credentials",
   "ExpiredToken",
   "AccessDenied",
   "AuthFailure",
   "The security token included in the request is invalid",
   "The config profile could not be found"]

/-- `is_auth_error` (`utils/cli_executor.py` lines 82–99): true iff any
authentication-failure pattern occurs in the error output. -/
def is_auth_error (error_output : String) : Bool :=
  auth_error_patterns.any (fun pattern => pyContains error_output pattern)

/-- The hard-coded `dangerous_commands` deny list of `validate_aws_command`
(`utils/cli_executor.py` lines 137–142). -/
def dangerous_commands : List String :=
  ["aws iam create-user",
   "aws iam create-access-key",
   "aws ec2 terminate-instances",
   "aws rds delete-db-instance"]

/-- `validate_aws_command` (`utils/cli_executor.py` lines 120–144).
A `ValueError` raised by `shlex.split` propagates; validation failures
raise `CommandValidationError`. -/
def validate_aws_command (command : String) : Except PyError Unit :=
  match shlexSplit command with
  | .error e => .error (.valueError e)
  | .ok cmd_parts =>
    match cmd_parts with
    | [] => .error (.validationError "Commands must start with 'aws'")
    | p0 :: rest =>
      if pyLower p0 ≠ "aws" then
        .error (.validationError "Commands must start with 'aws'")
      else if rest.isEmpty then
        .error (.validationError "Command must include an AWS service (e.g., aws s3)")
      else if dangerous_commands.any (fun dangerous_cmd => pyStartswith command dangerous_cmd) then
        .error (.validationError "This command is restricted for security reasons")
      else
        .ok ()

/-- Output truncation (`utils/cli_executor.py` lines 198–200 and the
identical `tools.py` lines 266–268): output longer than the configured
maximum is cut to the first `maxOutputSize` characters and a truncation
marker is appended. -/
def truncate_output (maxOutputSize : Nat) (stdout_str : String) : String :=
  if stdout_str.length > maxOutputSize then
    stdout_str.take maxOutputSize ++ "\n... (output truncated)"
  else stdout_str

/-- Observable behaviour of the single spawned child process of
`execute_aws_command`: the spawn call raises, the awaited `communicate`
exceeds the timeout, or the process completes with an exit code and
decoded stdout/stderr text (decoding with `errors="replace"` happens at
the OS boundary and is not modelled). -/
inductive ProcOutcome where
  | spawnFails : String → ProcOutcome
  | timesOut : ProcOutcome
  | completes : Int → String → String → ProcOutcome
deriving DecidableEq, Repr

/-- The process-creation request `execute_aws_command` hands to asyncio:
either a raw string for `create_subprocess_shell` or an argv vector for
`create_subprocess_exec`. -/
inductive SpawnCall where
  | shell : String → SpawnCall
  | exec : List String → SpawnCall
deriving DecidableEq, Repr

/-- The spawn request issued by `execute_aws_command`
(`utils/cli_executor.py` line 178):
`asyncio.create_subprocess_shell(command, ...)` — the raw command string,
handed to a shell. -/
def awsSpawnCall (command : String) : SpawnCall :=
  SpawnCall.shell command

/-- `execute_aws_command` (`utils/cli_executor.py` lines 147–218),
as a function of the child-process behaviour.  The rate-limiter gate
(line 165) only delays and is not modelled.  On timeout the inner
`CommandExecutionError` of line 191 is re-wrapped by the
`except Exception` handler of lines 217–218. -/
def execute_aws_command (maxOutputSize : Nat) (command : String)
    (timeout : Option Nat) (outcome : ProcOutcome) : Except PyError CommandResult :=
  match validate_aws_command command with
  | .error e => .error e
  | .ok _ =>
    let t := timeout.getD DEFAULT_TIMEOUT
    match outcome with
    | .spawnFails msg =>
      .error (.executionError ("Failed to execute command: " ++ msg))
    | .timesOut =>
      .error (.executionError
        ("Failed to execute command: Command timed out after " ++ Nat.repr t ++ " seconds"))
    | .completes returncode stdout_str stderr_str =>
      let stdout_str := truncate_output maxOutputSize stdout_str
      if returncode ≠ 0 then
        if is_auth_error stderr_str then
          .ok ⟨"error",
            "Authentication error: " ++ stderr_str ++ "\nPlease check your AWS credentials."⟩
        else
          .ok ⟨"error",
            if stderr_str = "" then "Command failed with no error output" else stderr_str⟩
      else
        .ok ⟨"success", stdout_str⟩

end CliExecutor

/-! ## tools.py -/

namespace Tools

/-- `ALLOWED_UNIX_COMMANDS` (`tools.py` lines 20–76): the fixed allow-list
of auxiliary programs permitted in non-first pipeline stages. -/
def ALLOWED_UNIX_COMMANDS : List String :=
  ["cat", "ls", "cd", "pwd", "cp", "mv", "rm", "mkdir", "touch", "chmod", "chown",
   "grep", "sed", "awk", "cut", "sort", "uniq", "wc", "head", "tail", "tr", "find",
   "ps", "top", "df", "du", "uname", "whoami", "date", "which", "echo",
   "ping", "ifconfig", "netstat", "curl", "wget", "dig", "nslookup", "ssh", "scp",
   "man", "less", "tar", "gzip", "gunzip", "zip", "unzip", "xargs", "jq", "tee"]

/-- `validate_unix_command` (`tools.py` lines 86–100): tokenize and check
that the first token is in the allow-list.  A `ValueError` raised by
`shlex.split` propagates, hence the `Except` result. -/
def validate_unix_command (command : String) : Except String Bool :=
  match shlexSplit command with
  | .error e => .error e
  | .ok cmd_parts =>
    match cmd_parts with
    | [] => .ok false
    | c0 :: _ => .ok (ALLOWED_UNIX_COMMANDS.contains c0)

/-- Core scanner of `is_pipe_command` (`tools.py` lines 103–133): remaining
characters and the `in_single_quote`, `in_double_quote`, `escaped` state.
Returns true at the first `|` seen with all three flags false. -/
def isPipeCore : List Char → Bool → Bool → Bool → Bool
  | [], _, _, _ => false
  | c :: cs, inS, inD, esc =>
    if c = bslashChar && !esc then isPipeCore cs inS inD true
    else if !esc then
      if c = squoteChar && !inD then isPipeCore cs (!inS) inD false
      else if c = dquoteChar && !inS then isPipeCore cs inS (!inD) false
      else if c = pipeChar && !inS && !inD then true
      else isPipeCore cs inS inD false
    else isPipeCore cs inS inD false

/-- `is_pipe_command` (`tools.py` lines 103–133). -/
def is_pipe_command (command : String) : Bool :=
  isPipeCore command.data false false false

/-- Core scanner of `split_pipe_command` (`tools.py` lines 136–178):
remaining characters, current accumulated command, quote/escape state.
Every character is kept (including backslashes and quotes); an unquoted
unescaped `|` ends the current command, which is stripped and emitted. -/
def splitPipeCore : List Char → List Char → Bool → Bool → Bool → List String
  | [], cur, _, _, _ =>
    if pyStrip (String.mk cur) ≠ "" then [pyStrip (String.mk cur)] else []
  | c :: cs, cur, inS, inD, esc =>
    if c = bslashChar && !esc then splitPipeCore cs (cur ++ [c]) inS inD true
    else if !esc then
      if c = squoteChar && !inD then splitPipeCore cs (cur ++ [c]) (!inS) inD false
      else if c = dquoteChar && !inS then splitPipeCore cs (cur ++ [c]) inS (!inD) false
      else if c = pipeChar && !inS && !inD then
        pyStrip (String.mk cur) :: splitPipeCore cs [] inS inD false
      else splitPipeCore cs (cur ++ [c]) inS inD false
    else splitPipeCore cs (cur ++ [c]) inS inD false

/-- `split_pipe_command` (`tools.py` lines 136–178). -/
def split_pipe_command (pipe_command : String) : List String :=
  splitPipeCore pipe_command.data [] false false false

/-- Observable result of one `asyncio.create_subprocess_exec` call in
`execute_piped_command`: succeeded, or raised with a message. -/
inductive SpawnOutcome where
  | ok : SpawnOutcome
  | fails : String → SpawnOutcome
deriving DecidableEq, Repr

/-- Observable result of awaiting one process's `communicate` in
`execute_piped_command`: `asyncio.TimeoutError`, or completion with an
exit code and decoded stdout/stderr text. -/
inductive CommOutcome where
  | timesOut : CommOutcome
  | completes : Int → String → String → CommOutcome
deriving DecidableEq, Repr

/-- The `[shlex.split(cmd) for cmd in commands]` list comprehension of
`tools.py` line 202: the first `ValueError` aborts the comprehension. -/
def shlexStages : List String → Except String (List (List String))
  | [] => .ok []
  | c :: cs =>
    match shlexSplit c with
    | .error e => .error e
    | .ok parts => (shlexStages cs).map (fun rest => parts :: rest)

/-- The `for cmd_parts in command_parts_list[1:]` loop of
`execute_piped_command` (`tools.py` lines 216–247), processing stage `i`
with `fuel` iterations left.  Entering an iteration, the current process
is stage `i - 1`; the loop first awaits its `communicate` (timeout ⇒ the
timed-out result), checks its exit code (non-zero ⇒ that stage's stderr
as the error result), spawns stage `i` (an exception propagates to the
outer handler, modelled as the corresponding error result), then awaits
stage `i`.  `spawn`/`comm` give each stage's behaviour by index; a repeat
`communicate` of the same stage (which the source performs on middle
stages of pipelines with three or more stages) observes the same recorded
outcome.  Returns `.error r` when the loop ends the call with result `r`,
and `.ok (comm (i-1))` when the loop runs out of stages. -/
def pipedLoop (t : Nat) (spawn : Nat → SpawnOutcome) (comm : Nat → CommOutcome) :
    Nat → Nat → Except CommandResult CommOutcome
  | i, 0 => .ok (comm (i - 1))
  | i, fuel + 1 =>
    match comm (i - 1) with
    | .timesOut =>
      .error ⟨"error", "Command timed out after " ++ Nat.repr t ++ " seconds"⟩
    | .completes returncode _ stderr_str =>
      if returncode ≠ 0 then
        .error ⟨"error",
          if stderr_str = "" then "Command failed with no error output" else stderr_str⟩
      else
        match spawn i with
        | .fails msg => .error ⟨"error", "Failed to execute command: " ++ msg⟩
        | .ok =>
          match comm i with
          | .timesOut =>
            .error ⟨"error", "Command timed out after " ++ Nat.repr t ++ " seconds"⟩
          | .completes _ _ _ => pipedLoop t spawn comm (i + 1) fuel

/-- `execute_piped_command` (`tools.py` lines 181–278), as a function of
the behaviour of the spawned stage processes.  The whole body sits in a
`try` whose `except Exception` handler (lines 276–278) converts any raised
exception into a returned `CommandResult`, so the function always returns
a `CommandResult` and never raises. -/
def execute_piped_command (maxOutputSize : Nat) (pipe_command : String)
    (timeout : Option Nat) (spawn : Nat → SpawnOutcome) (comm : Nat → CommOutcome) :
    CommandResult :=
  let t := timeout.getD CliExecutor.DEFAULT_TIMEOUT
  let commands := split_pipe_command pipe_command
  match shlexStages commands with
  | .error msg => ⟨"error", "Failed to execute command: " ++ msg⟩
  | .ok _command_parts_list =>
    if commands.length = 0 then ⟨"error", "Empty command"⟩
    else
      match spawn 0 with
      | .fails msg => ⟨"error", "Failed to execute command: " ++ msg⟩
      | .ok =>
        match pipedLoop t spawn comm 1 (commands.length - 1) with
        | .error result => result
        | .ok finalComm =>
          match finalComm with
          | .timesOut =>
            ⟨"error", "Command timed out after " ++ Nat.repr t ++ " seconds"⟩
          | .completes returncode stdout stderr =>
            let stdout_str := CliExecutor.truncate_output maxOutputSize stdout
            if returncode ≠ 0 then
              ⟨"error",
                if stderr = "" then "Command failed with no error output" else stderr⟩
            else ⟨"success", stdout_str⟩

end Tools

/-! ## utils/formatter.py

The JSON branches call `json.loads`/`json.dumps`; a full JSON model is out
of scope, so the pretty-printer is abstracted as a parameter
`jsonPretty : String → Option String` returning `some` of the re-serialized
text when `json.loads` succeeds and `none` when it raises `ValueError`.
None of the theorems below depend on its value. -/

namespace Formatter

/-- The bullet string literal of `format_list_output` (`utils/formatter.py`
line 104).  The source file literally contains the three code points
U+00E2, U+20AC, U+00A2 (a mojibake rendering of a bullet) followed by a
space; they are spelled out here to pin the exact code points. -/
def bulletMark : String :=
  String.mk [Char.ofNat 226, Char.ofNat 8364, Char.ofNat 162, ' ']

/-- `format_table_output` (`utils/formatter.py` lines 38–70): inserts a
dash separator line, shaped after the header, between the header and the
remaining lines. -/
def format_table_output (text : String) : String :=
  let lines := pySplitNewline (pyStrip text)
  if lines.length ≤ 1 then text
  else
    match lines with
    | [] => text
    | header :: restLines =>
      let separator := String.mk (header.data.map (fun c => if c ≠ ' ' then '-' else ' '))
      String.intercalate "\n" (header :: separator :: restLines)

/-- `format_list_output` (`utils/formatter.py` lines 73–114): prefixes
every non-blank line with the bullet string, keeping its indentation.
The `try` never raises for pure string operations, so the fallback branch
is dead. -/
def format_list_output (text : String) : String :=
  if text = "" || pyStrip text = "" then text
  else
    let lines := pySplitNewline (pyStrip text)
    if lines.isEmpty then text
    else
      String.intercalate "\n" (lines.map (fun line =>
        if pyStrip line ≠ "" then
          let stripped := pyLstrip line
          let indent := line.length - stripped.length
          String.mk (List.replicate indent ' ') ++ bulletMark ++ stripped
        else line))

/-- The auto-detection tail of `format_aws_output`
(`utils/formatter.py` lines 153–183): JSON-looking output is
pretty-printed when it parses; output mentioning `USER` goes to list
formatting; multi-line output goes to table or list formatting by the
all-lines-multi-word heuristic; anything else is returned unchanged. -/
def autoDetect (jsonPretty : String → Option String) (output : String) : String :=
  let jsonResult :=
    if pyStartswith (pyStrip output) "\x7b" || pyStartswith (pyStrip output) "[" then
      jsonPretty output
    else none
  match jsonResult with
  | some r => r
  | none =>
    if pyContains output "USERS" || pyContains output "USER" then
      format_list_output output
    else if pyContains output "\n" && (pySplitNewline (pyStrip output)).length > 1 then
      if (pySplitNewline (pyStrip output)).all
          (fun line => pyStrip line = "" || (pySplitWs line).length > 1) then
        if (pySplitNewline (pyStrip output)).any
            (fun line => pyStartswith (pyStrip line) "USERS") then
          format_list_output output
        else format_table_output output
      else format_list_output output
    else output

/-- `format_aws_output` (`utils/formatter.py` lines 117–183).  `None` and
blank outputs are returned as is; an explicit `json`/`table`/`list`
format hint selects the formatter (a failed JSON parse returns the output
unchanged); any other situation goes to auto-detection. -/
def format_aws_output (jsonPretty : String → Option String)
    (output : Option String) (format_type : Option String) : Option String :=
  match output with
  | none => none
  | some out =>
    if pyStrip out = "" then some out
    else
      match format_type with
      | some ft =>
        if pyLower ft = "json" then
          match jsonPretty out with
          | some r => some r
          | none => some out
        else if pyLower ft = "table" then some (format_table_output out)
        else if pyLower ft = "list" then some (format_list_output out)
        else some (autoDetect jsonPretty out)
      | none => some (autoDetect jsonPretty out)

end Formatter

/-! ## security.py (modelled from the spec)

The repository's tests (`tests/unit/test_security.py`) and the spec's
§4.2/§4.3 describe a module `aws_mcp_server/security.py` — configurable
dangerous-prefix/safe-pattern tables, regex rules and pipeline
validation — that is not present under `src/`; only its tests and callers
are.  The definitions in this namespace are therefore modelled from the
spec, as stated in each doc comment. -/

namespace Security

/-- Modelled from the spec (§3 `SecurityConfig`): the missing
`aws_mcp_server/security.py` holds per-service ordered lists of
dangerous command prefixes and of safe-pattern override prefixes.
Regex rules are kept abstract (see `validate_aws_command`). -/
structure SecurityConfig where
  dangerous_commands : List (String × List String)
  safe_patterns : List (String × List String)
deriving DecidableEq, Repr

/-- Modelled from the spec (§4.2 `classify`, steps 1–4): the missing
`aws_mcp_server/security.py` `validate_aws_command`.  Order of evaluation:
structural checks (first token is the program name case-insensitively, a
service token exists), then regex rules — abstracted as
`regexCheck : String → Option String` returning a matching rule's error
message, since a regex engine is out of scope — then the dangerous-prefix
check for the command's service, overridden by a matching safe pattern. -/
def validate_aws_command (regexCheck : String → Option String)
    (cfg : SecurityConfig) (command : String) : Except String Unit :=
  match shlexSplit command with
  | .error e => .error e
  | .ok [] => .error "Commands must start with 'aws'"
  | .ok (p0 :: rest) =>
    if pyLower p0 ≠ "aws" then .error "Commands must start with 'aws'"
    else
      match rest with
      | [] => .error "Command must include an AWS service (e.g., aws s3)"
      | service :: _ =>
        match regexCheck command with
        | some msg => .error msg
        | none =>
          let dangerous := ((cfg.dangerous_commands.lookup service).getD [])
          if dangerous.any (fun d => pyStartswith command d) then
            let safes := ((cfg.safe_patterns.lookup service).getD [])
            if safes.any (fun p => pyStartswith command p) then .ok ()
            else .error "This command is restricted for security reasons"
          else .ok ()

/-- Modelled from the spec (§4.3 `validate_pipeline` and §7): stage
checking of the missing `aws_mcp_server/security.py`
`validate_pipe_command`.  Stage `i` is first checked non-empty
("Empty command at position N", reported before allow-list checks);
stage 0 goes to the single-command validator (abstracted as the
`awsValidate` parameter); each later stage must pass
`validate_unix_command` from `tools.py`, failing with a message containing
"not allowed". -/
def pipeStagesCheck (awsValidate : String → Except String Unit) :
    List String → Nat → Except String Unit
  | [], _ => .ok ()
  | stage :: rest, i =>
    if stage = "" then .error ("Empty command at position " ++ Nat.repr i)
    else if i = 0 then
      match awsValidate stage with
      | .error e => .error e
      | .ok _ => pipeStagesCheck awsValidate rest (i + 1)
    else
      match Tools.validate_unix_command stage with
      | .error e => .error e
      | .ok true => pipeStagesCheck awsValidate rest (i + 1)
      | .ok false => .error ("Command in pipe is not allowed: " ++ stage)

/-- Modelled from the spec (§4.3 `validate_pipeline`): the missing
`aws_mcp_server/security.py` `validate_pipe_command`.  Splits with
`split_pipe_command` from `tools.py`, rejects an empty pipeline with
"Empty command", and checks the stages in order. -/
def validate_pipe_command (awsValidate : String → Except String Unit)
    (pipe_command : String) : Except String Unit :=
  let commands := Tools.split_pipe_command pipe_command
  if commands.isEmpty then .error "Empty command"
  else pipeStagesCheck awsValidate commands 0

end Security

/-! ## Helper lemmas -/

/-- Whether an `Except String Unit` result is an error whose message
contains the given substring. -/
def errContains (r : Except String Unit) (sub : String) : Bool :=
  match r with
  | .error e => pyContains e sub
  | .ok _ => false

theorem string_data_append (a b : String) : (a ++ b).data = a.data ++ b.data :=
  String.data_append a b

/-- A substring of `a` is a substring of `a ++ b`. -/
theorem pyContains_append_left {a : String} (b sub : String)
    (h : pyContains a sub = true) : pyContains (a ++ b) sub = true := by
  have h1 : sub.data <:+: a.data := of_decide_eq_true h
  have h2 : a.data <:+: (a ++ b).data := by
    rw [string_data_append]
    exact (List.prefix_append a.data b.data).isInfix
  exact decide_eq_true (h1.trans h2)

/-- If the command string literally starts with the four characters
`a`, `w`, `s`, space, then its first `shlex` token is exactly `"aws"`. -/
theorem shlex_first_token_aws {command t1 : String} {rest : List String}
    (hpre : pyStartswith command "aws " = true)
    (hsplit : shlexSplit command = .ok (t1 :: rest)) : t1 = "aws" := by
  have h1 : "aws ".data <+: command.data := of_decide_eq_true hpre
  obtain ⟨tl, htl⟩ := h1
  have hdata : command.data = 'a' :: 'w' :: 's' :: ' ' :: tl := by
    rw [← htl]; rfl
  have hstep : shlexSplit command = (shlexCore tl .ws []).map (fun ts => "aws" :: ts) := by
    rw [shlexSplit, hdata]; rfl
  rw [hstep] at hsplit
  cases hcore : shlexCore tl .ws [] with
  | error e => rw [hcore] at hsplit; simp [Except.map] at hsplit
  | ok l =>
    rw [hcore] at hsplit
    simp only [Except.map, Except.ok.injEq] at hsplit
    injection hsplit with h1 _
    exact h1.symm

/-! ## Claim theorems -/

/-- C1: the claim states that `execute_aws_command` passes the shlex
token list of the command to process creation with no shell involved.
The source (`utils/cli_executor.py` line 178) instead passes the raw
command string to `asyncio.create_subprocess_shell`: at the valid command
`"aws s3 ls"` the issued spawn request is the shell request carrying the
raw string, not the exec request carrying the token list
`["aws", "s3", "ls"]` that the tokenizer produces (and that the repo's
own unit tests expect by patching `asyncio.create_subprocess_exec`). -/
theorem execute_spawns_shell_not_exec :
    CliExecutor.awsSpawnCall "aws s3 ls" = CliExecutor.SpawnCall.shell "aws s3 ls" ∧
    shlexSplit "aws s3 ls" = .ok ["aws", "s3", "ls"] ∧
    CliExecutor.awsSpawnCall "aws s3 ls" ≠ CliExecutor.SpawnCall.exec ["aws", "s3", "ls"] := by
  refine ⟨rfl, by decide, by decide⟩

/-- C2 counterexample: for the valid command `"aws s3 ls"` with timeout 30,
a timed-out execution makes `execute_aws_command` raise
`CommandExecutionError` (modelled as `.error`), not return a
`CommandResult` with error status as the claim states. -/
theorem single_timeout_raises :
    CliExecutor.execute_aws_command 10000 "aws s3 ls" (some 30) CliExecutor.ProcOutcome.timesOut =
      .error (.executionError "Failed to execute command: Command timed out after 30 seconds") := by
  decide

/-- C2 amended: on a timeout, `execute_piped_command` returns
`CommandResult` with error status whose message contains the exact
configured timeout value, while `execute_aws_command` instead raises
`CommandExecutionError` whose message contains the exact configured
timeout value. -/
theorem timeout_reporting (maxOut : Nat) (command pipeCmd : String) (t : Nat)
    (s0 : String) (rest : List String) (parts : List (List String))
    (spawn : Nat → Tools.SpawnOutcome) (comm : Nat → Tools.CommOutcome)
    (hval : CliExecutor.validate_aws_command command = .ok ())
    (hsplit : Tools.split_pipe_command pipeCmd = s0 :: rest)
    (hstages : Tools.shlexStages (s0 :: rest) = .ok parts)
    (hspawn0 : spawn 0 = .ok) (hcomm0 : comm 0 = .timesOut) :
    CliExecutor.execute_aws_command maxOut command (some t) CliExecutor.ProcOutcome.timesOut =
      .error (.executionError
        ("Failed to execute command: Command timed out after " ++ Nat.repr t ++ " seconds")) ∧
    Tools.execute_piped_command maxOut pipeCmd (some t) spawn comm =
      ⟨"error", "Command timed out after " ++ Nat.repr t ++ " seconds"⟩ := by
  constructor
  · unfold CliExecutor.execute_aws_command
    rw [hval]
    rfl
  · simp only [Tools.execute_piped_command, hsplit, hstages]
    simp only [List.length_cons, Nat.succ_ne_zero, if_neg, hspawn0]
    cases rest with
    | nil => simp [Tools.pipedLoop, hcomm0]
    | cons r rs => simp [Tools.pipedLoop, hcomm0]

/-- C2 witness: both parts of `timeout_reporting` at concrete inputs —
single command `"aws s3 ls"`, pipeline `"aws s3 ls | grep bucket"` whose
first stage times out, timeout 30. -/
theorem timeout_reporting_witness :
    CliExecutor.execute_aws_command 10000 "aws s3 ls" (some 30) CliExecutor.ProcOutcome.timesOut =
      .error (.executionError
        ("Failed to execute command: Command timed out after " ++ Nat.repr 30 ++ " seconds")) ∧
    Tools.execute_piped_command 10000 "aws s3 ls | grep bucket" (some 30)
      (fun _ => .ok) (fun _ => .timesOut) =
      ⟨"error", "Command timed out after " ++ Nat.repr 30 ++ " seconds"⟩ :=
  timeout_reporting 10000 "aws s3 ls" "aws s3 ls | grep bucket" 30
    "aws s3 ls" ["grep bucket"] [["aws", "s3", "ls"], ["grep", "bucket"]]
    (fun _ => .ok) (fun _ => .timesOut)
    (by decide) (by decide) (by decide) rfl rfl

/-- C3: under a configuration whose dangerous prefixes for service `iam`
include `"aws iam create-user"` and whose safe patterns for `iam` include
`"aws iam create-user --help"`, the command `"aws iam create-user --help"`
both matches the dangerous prefix and is classified Allowed by
single-command validation: the safe-override pattern takes precedence.
(`validate_aws_command` of the security module is modelled from the spec,
§4.2; the module itself is absent from src/.) -/
theorem safe_pattern_overrides_dangerous :
    pyStartswith "aws iam create-user --help" "aws iam create-user" = true ∧
    Security.validate_aws_command (fun _ => none)
      ⟨[("iam", ["aws iam create-user"])], [("iam", ["aws iam create-user --help"])]⟩
      "aws iam create-user --help" = .ok () := by
  refine ⟨by decide, by decide⟩

/-- C5 counterexample: a spawn failure in `execute_piped_command` for the
pipeline `"aws s3 ls | grep bucket"` is returned as a `CommandResult` with
error status (the `except Exception` handler of `tools.py` lines 276–278),
not raised as a `CommandExecutionError` as the claim states. -/
theorem piped_spawn_failure_returns_result :
    Tools.execute_piped_command 10000 "aws s3 ls | grep bucket" (some 30)
      (fun _ => .fails "[Errno 2] No such file or directory")
      (fun _ => .timesOut) =
      ⟨"error", "Failed to execute command: [Errno 2] No such file or directory"⟩ := by
  decide

/-- C5 amended: `execute_aws_command` raises `CommandExecutionError` on a
spawn failure (or unexpected exception) and returns `CommandResult` with
error status for a non-zero exit; `execute_piped_command` never raises —
a spawn failure there is caught and returned as a `CommandResult` with
error status and a "Failed to execute command" message. -/
theorem execution_error_reporting (maxOut : Nat) (command pipeCmd msg : String)
    (timeout : Option Nat) (rc : Int) (out err s0 : String) (rest : List String)
    (parts : List (List String)) (comm : Nat → Tools.CommOutcome)
    (hval : CliExecutor.validate_aws_command command = .ok ())
    (hrc : rc ≠ 0)
    (hsplit : Tools.split_pipe_command pipeCmd = s0 :: rest)
    (hstages : Tools.shlexStages (s0 :: rest) = .ok parts) :
    CliExecutor.execute_aws_command maxOut command timeout (.spawnFails msg) =
      .error (.executionError ("Failed to execute command: " ++ msg)) ∧
    (CliExecutor.execute_aws_command maxOut command timeout (.completes rc out err)).isOk = true ∧
    Tools.execute_piped_command maxOut pipeCmd timeout (fun _ => .fails msg) comm =
      ⟨"error", "Failed to execute command: " ++ msg⟩ := by
  refine ⟨?_, ?_, ?_⟩
  · unfold CliExecutor.execute_aws_command
    rw [hval]
  · unfold CliExecutor.execute_aws_command
    rw [hval]
    by_cases ha : CliExecutor.is_auth_error err <;>
      simp [ha, hrc, Except.isOk, Except.toBool]
  · simp only [Tools.execute_piped_command, hsplit, hstages]
    simp

/-- C5 witness: all three parts of `execution_error_reporting` at concrete
inputs — command `"aws s3 ls"`, pipeline `"aws s3 ls | grep bucket"`,
spawn failure message `"boom"`, exit code 1. -/
theorem execution_error_reporting_witness :
    CliExecutor.execute_aws_command 10000 "aws s3 ls" (some 30) (.spawnFails "boom") =
      .error (.executionError ("Failed to execute command: " ++ "boom")) ∧
    (CliExecutor.execute_aws_command 10000 "aws s3 ls" (some 30)
      (.completes 1 "" "some failure")).isOk = true ∧
    Tools.execute_piped_command 10000 "aws s3 ls | grep bucket" (some 30)
      (fun _ => .fails "boom") (fun _ => .timesOut) =
      ⟨"error", "Failed to execute command: " ++ "boom"⟩ :=
  execution_error_reporting 10000 "aws s3 ls" "aws s3 ls | grep bucket" "boom"
    (some 30) 1 "" "some failure" "aws s3 ls" ["grep bucket"]
    [["aws", "s3", "ls"], ["grep", "bucket"]] (fun _ => .timesOut)
    (by decide) (by decide) (by decide) (by decide)

/-- C6: for a command completing with non-zero exit code,
`execute_aws_command` returns error status with output prefixed by the
authentication-error marker and remediation hint when `is_auth_error`
matches the stderr text, the stderr text verbatim when it does not match
and is non-empty, and the generic no-error-output message when stderr is
empty; stderr containing `"AccessDenied"` or
`"Unable to locate credentials"` always matches. -/
theorem nonzero_exit_classification (maxOut : Nat) (command : String)
    (timeout : Option Nat) (rc : Int) (out err : String)
    (hval : CliExecutor.validate_aws_command command = .ok ())
    (hrc : rc ≠ 0) :
    CliExecutor.execute_aws_command maxOut command timeout (.completes rc out err) =
      .ok ⟨"error",
        if CliExecutor.is_auth_error err then
          "Authentication error: " ++ err ++ "\nPlease check your AWS credentials."
        else if err = "" then "Command failed with no error output" else err⟩ ∧
    (pyContains err "AccessDenied" = true ∨ pyContains err "Unable to locate credentials" = true →
      CliExecutor.is_auth_error err = true) := by
  constructor
  · unfold CliExecutor.execute_aws_command
    rw [hval]
    by_cases ha : CliExecutor.is_auth_error err <;> by_cases he : err = "" <;>
      simp [ha, he, hrc]
    all_goals rfl
  · intro h
    unfold CliExecutor.is_auth_error CliExecutor.auth_error_patterns
    rcases h with h | h <;> simp [h]

/-- C6 witness: `nonzero_exit_classification` at the command
`"aws s3 ls"`, exit code 255 and stderr containing `"AccessDenied"`. -/
theorem nonzero_exit_classification_witness :
    CliExecutor.execute_aws_command 10000 "aws s3 ls" (some 30)
      (.completes 255 "" "An error occurred (AccessDenied) when calling the ListBuckets operation") =
      .ok ⟨"error",
        if CliExecutor.is_auth_error
            "An error occurred (AccessDenied) when calling the ListBuckets operation" then
          "Authentication error: " ++
            "An error occurred (AccessDenied) when calling the ListBuckets operation" ++
            "\nPlease check your AWS credentials."
        else if "An error occurred (AccessDenied) when calling the ListBuckets operation" = "" then
          "Command failed with no error output"
        else "An error occurred (AccessDenied) when calling the ListBuckets operation"⟩ ∧
    (pyContains "An error occurred (AccessDenied) when calling the ListBuckets operation"
        "AccessDenied" = true ∨
      pyContains "An error occurred (AccessDenied) when calling the ListBuckets operation"
        "Unable to locate credentials" = true →
      CliExecutor.is_auth_error
        "An error occurred (AccessDenied) when calling the ListBuckets operation" = true) :=
  nonzero_exit_classification 10000 "aws s3 ls" (some 30) 255 ""
    "An error occurred (AccessDenied) when calling the ListBuckets operation"
    (by decide) (by decide)

/-- C7: on successful execution, output longer than the configured maximum
is returned as exactly the first `maxOut` characters followed by the
truncation marker, and output at or below the limit is returned unchanged;
both `execute_aws_command` and `execute_piped_command` (here for a
two-stage pipeline) return the truncation of the final stdout. -/
theorem success_output_truncation (maxOut : Nat) (command pipeCmd : String)
    (timeout : Option Nat) (out err s0 s1 o0 e0 : String)
    (parts : List (List String))
    (hval : CliExecutor.validate_aws_command command = .ok ())
    (hsplit : Tools.split_pipe_command pipeCmd = [s0, s1])
    (hstages : Tools.shlexStages [s0, s1] = .ok parts) :
    CliExecutor.execute_aws_command maxOut command timeout (.completes 0 out err) =
      .ok ⟨"success", CliExecutor.truncate_output maxOut out⟩ ∧
    Tools.execute_piped_command maxOut pipeCmd timeout (fun _ => .ok)
      (fun i => if i = 0 then .completes 0 o0 e0 else .completes 0 out err) =
      ⟨"success", CliExecutor.truncate_output maxOut out⟩ ∧
    (out.length > maxOut →
      CliExecutor.truncate_output maxOut out = out.take maxOut ++ "\n... (output truncated)") ∧
    (out.length ≤ maxOut → CliExecutor.truncate_output maxOut out = out) := by
  refine ⟨?_, ?_, ?_, ?_⟩
  · unfold CliExecutor.execute_aws_command
    rw [hval]
    simp
  · simp only [Tools.execute_piped_command, hsplit, hstages]
    simp [Tools.pipedLoop]
  · intro h
    unfold CliExecutor.truncate_output
    simp [h]
  · intro h
    unfold CliExecutor.truncate_output
    simp [Nat.not_lt.mpr h]

/-- C7 witness: `success_output_truncation` with maximum output size 5 at
the command `"aws s3 ls"` and the pipeline `"aws s3 ls | grep bucket"`,
whose final stdout `"abcdefgh"` (8 characters) exceeds the limit. -/
theorem success_output_truncation_witness :
    CliExecutor.execute_aws_command 5 "aws s3 ls" (some 30) (.completes 0 "abcdefgh" "") =
      .ok ⟨"success", CliExecutor.truncate_output 5 "abcdefgh"⟩ ∧
    Tools.execute_piped_command 5 "aws s3 ls | grep bucket" (some 30) (fun _ => .ok)
      (fun i => if i = 0 then .completes 0 "x" "" else .completes 0 "abcdefgh" "") =
      ⟨"success", CliExecutor.truncate_output 5 "abcdefgh"⟩ ∧
    ("abcdefgh".length > 5 →
      CliExecutor.truncate_output 5 "abcdefgh" = "abcdefgh".take 5 ++ "\n... (output truncated)") ∧
    ("abcdefgh".length ≤ 5 → CliExecutor.truncate_output 5 "abcdefgh" = "abcdefgh") :=
  success_output_truncation 5 "aws s3 ls" "aws s3 ls | grep bucket" (some 30)
    "abcdefgh" "" "aws s3 ls" "grep bucket" "x" ""
    [["aws", "s3", "ls"], ["grep", "bucket"]]
    (by decide) (by decide) (by decide)

/-- C9 counterexample: `format_aws_output` is not idempotent.  With the
`"list"` format hint at the output `"USERS alice"`, a first application
prepends the bullet marker and a second application prepends it again,
changing the result. -/
theorem format_not_idempotent :
    Formatter.format_aws_output (fun _ => none)
        (Formatter.format_aws_output (fun _ => none) (some "USERS alice") (some "list"))
        (some "list") ≠
      Formatter.format_aws_output (fun _ => none) (some "USERS alice") (some "list") := by
  decide

/-- C9 amended: `format_aws_output` is idempotent on `None` and on blank
output, which every path returns unchanged; it is not idempotent in
general (see the counterexample: list formatting prepends a further
bullet marker on each application). -/
theorem format_blank_idempotent (jsonPretty : String → Option String)
    (s : String) (ft : Option String) (hblank : pyStrip s = "") :
    Formatter.format_aws_output jsonPretty (some s) ft = some s ∧
    Formatter.format_aws_output jsonPretty none ft = none ∧
    Formatter.format_aws_output jsonPretty
        (Formatter.format_aws_output jsonPretty (some s) ft) ft =
      Formatter.format_aws_output jsonPretty (some s) ft := by
  have h1 : Formatter.format_aws_output jsonPretty (some s) ft = some s := by
    unfold Formatter.format_aws_output
    simp [hblank]
  refine ⟨h1, rfl, ?_⟩
  rw [h1, h1]

/-- C9 witness: `format_blank_idempotent` at the blank output `" "` with
no format hint. -/
theorem format_blank_idempotent_witness :
    Formatter.format_aws_output (fun _ => none) (some " ") none = some " " ∧
    Formatter.format_aws_output (fun _ => none) none none = none ∧
    Formatter.format_aws_output (fun _ => none)
        (Formatter.format_aws_output (fun _ => none) (some " ") none) none =
      Formatter.format_aws_output (fun _ => none) (some " ") none :=
  format_blank_idempotent (fun _ => none) " " none (by decide)

/-- One transition of the quote/escape state machine that
`is_pipe_command` runs (`tools.py` lines 112–131), on the state triple
`(in_single_quote, in_double_quote, escaped)`: a backslash outside an
escape sets the escape flag; otherwise, when not escaped, an unquoted
single or double quote toggles its flag; in every other case the escape
flag is cleared.  This is the scanner's own state update, separated from
its early return, and is used to state which positions of a command
string count as quoted or escaped. -/
def scanStep (st : Bool × Bool × Bool) (c : Char) : Bool × Bool × Bool :=
  if c = bslashChar && !st.2.2 then (st.1, st.2.1, true)
  else if !st.2.2 then
    if c = squoteChar && !st.2.1 then (!st.1, st.2.1, false)
    else if c = dquoteChar && !st.1 then (st.1, !st.2.1, false)
    else (st.1, st.2.1, false)
  else (st.1, st.2.1, false)

theorem bslash_ne_squote : bslashChar ≠ squoteChar := by decide

theorem bslash_ne_dquote : bslashChar ≠ dquoteChar := by decide

theorem bslash_ne_pipe : bslashChar ≠ pipeChar := by decide

theorem squote_ne_dquote : squoteChar ≠ dquoteChar := by decide

theorem squote_ne_pipe : squoteChar ≠ pipeChar := by decide

theorem dquote_ne_pipe : dquoteChar ≠ pipeChar := by decide

theorem squote_ne_bslash : squoteChar ≠ bslashChar := by decide

theorem dquote_ne_bslash : dquoteChar ≠ bslashChar := by decide

theorem pipe_ne_bslash : pipeChar ≠ bslashChar := by decide

theorem dquote_ne_squote : dquoteChar ≠ squoteChar := by decide

theorem pipe_ne_squote : pipeChar ≠ squoteChar := by decide

theorem pipe_ne_dquote : pipeChar ≠ dquoteChar := by decide

/-- Unfolding step of the `is_pipe_command` scanner on one character:
it reports a pipe either immediately (the character is `|` and the state
is fully clear) or later, continuing from the updated state. -/
theorem isPipeCore_cons_step (c : Char) (cs : List Char) (inS inD esc : Bool) :
    Tools.isPipeCore (c :: cs) inS inD esc = true ↔
      ((c = pipeChar ∧ (inS, inD, esc) = (false, false, false)) ∨
        Tools.isPipeCore cs (scanStep (inS, inD, esc) c).1
          (scanStep (inS, inD, esc) c).2.1 (scanStep (inS, inD, esc) c).2.2 = true) := by
  cases esc <;> cases inS <;> cases inD <;>
    by_cases hb : c = bslashChar <;> by_cases hs : c = squoteChar <;>
    by_cases hd : c = dquoteChar <;> by_cases hp : c = pipeChar <;>
    simp_all [Tools.isPipeCore, scanStep, bslash_ne_squote, bslash_ne_dquote,
      bslash_ne_pipe, squote_ne_dquote, squote_ne_pipe, dquote_ne_pipe,
      squote_ne_bslash, dquote_ne_bslash, pipe_ne_bslash, dquote_ne_squote,
      pipe_ne_squote, pipe_ne_dquote]

/-- Shift of the "some position holds an unquoted unescaped pipe"
property across one consumed character. -/
theorem unquotedPipe_cons (c : Char) (cs : List Char) (st : Bool × Bool × Bool) :
    (∃ i, ∃ h : i < (c :: cs).length, (c :: cs).get ⟨i, h⟩ = pipeChar ∧
        ((c :: cs).take i).foldl scanStep st = (false, false, false)) ↔
      ((c = pipeChar ∧ st = (false, false, false)) ∨
        (∃ i, ∃ h : i < cs.length, cs.get ⟨i, h⟩ = pipeChar ∧
          (cs.take i).foldl scanStep (scanStep st c) = (false, false, false))) := by
  constructor
  · rintro ⟨i, hi, hget, hst⟩
    cases i with
    | zero =>
      left
      refine ⟨hget, ?_⟩
      simpa using hst
    | succ j =>
      right
      refine ⟨j, Nat.lt_of_succ_lt_succ hi, ?_, ?_⟩
      · simpa using hget
      · simpa [List.take_succ_cons] using hst
  · rintro (⟨hc, hst⟩ | ⟨j, hj, hget, hst⟩)
    · exact ⟨0, Nat.succ_pos _, hc, by simpa using hst⟩
    · exact ⟨j + 1, Nat.succ_lt_succ hj, by simpa using hget,
        by simpa [List.take_succ_cons] using hst⟩

/-- The scanner of `is_pipe_command` returns true from a given start
state exactly when some position holds the pipe character with both
quote flags and the escape flag clear at that position. -/
theorem isPipeCore_iff (cs : List Char) : ∀ (inS inD esc : Bool),
    Tools.isPipeCore cs inS inD esc = true ↔
      ∃ i, ∃ h : i < cs.length, cs.get ⟨i, h⟩ = pipeChar ∧
        (cs.take i).foldl scanStep (inS, inD, esc) = (false, false, false) := by
  induction cs with
  | nil =>
    intro inS inD esc
    constructor
    · intro h
      exact absurd h (by simp [Tools.isPipeCore])
    · rintro ⟨i, hi, _⟩
      exact absurd hi (by simp)
  | cons c cs ih =>
    intro inS inD esc
    rw [isPipeCore_cons_step c cs inS inD esc,
      unquotedPipe_cons c cs (inS, inD, esc)]
    apply or_congr_right
    rw [ih]

/-- C8: pipe detection sees exactly the unquoted, unescaped occurrences
of `|`: for every command string, `is_pipe_command` returns true iff some
position holds a `|` at which the scanner's quote/escape state (the state
machine of `tools.py` lines 112–131, reproduced by `scanStep`) is fully
clear — so a string whose every `|` lies inside quotes yields false.  The
two concrete spec examples: `"cmd 'a|b'"` (pipe inside single quotes) is
not a pipe command, `"cmd a | grep b"` is. -/
theorem pipe_detection_quote_aware :
    (∀ s : String, Tools.is_pipe_command s = true ↔
      ∃ i, ∃ h : i < s.data.length, s.data.get ⟨i, h⟩ = pipeChar ∧
        (s.data.take i).foldl scanStep (false, false, false) = (false, false, false)) ∧
    Tools.is_pipe_command ("cmd " ++ String.mk [squoteChar] ++ "a|b" ++ String.mk [squoteChar]) =
      false ∧
    Tools.is_pipe_command "cmd a | grep b" = true := by
  refine ⟨fun s => isPipeCore_iff s.data false false false, by decide, by decide⟩

/-- C10: the program-name check of `validate_aws_command`
(`utils/cli_executor.py`) lowercases the first token, but the
dangerous-prefix check uses `command.startswith` on the raw string, so a
command whose first token is a non-lowercase spelling of `aws` passes
validation even when its lowercased form starts with a configured
dangerous prefix. -/
theorem case_insensitive_program_case_sensitive_deny (command t1 : String)
    (rest : List String)
    (hsplit : shlexSplit command = .ok (t1 :: rest))
    (hlow : pyLower t1 = "aws") (hne : t1 ≠ "aws") (hrest : rest ≠ [])
    (_hdanger : CliExecutor.dangerous_commands.any
      (fun d => pyStartswith (pyLower command) d) = true) :
    CliExecutor.validate_aws_command command = .ok () := by
  have hnotpre : ∀ d ∈ CliExecutor.dangerous_commands, pyStartswith command d = false := by
    intro d hd
    by_contra hc
    have hc' : pyStartswith command d = true := by
      cases h : pyStartswith command d
      · exact absurd h hc
      · rfl
    have hawspre : pyStartswith command "aws " = true := by
      have h1 : "aws ".data <+: d.data := by
        fin_cases hd <;> decide
      have h2 : d.data <+: command.data := of_decide_eq_true hc'
      exact decide_eq_true (h1.trans h2)
    exact hne (shlex_first_token_aws hawspre hsplit)
  have hany : CliExecutor.dangerous_commands.any
      (fun d => pyStartswith command d) = false := by
    rw [List.any_eq_false]
    intro d hd
    simp [hnotpre d hd]
  unfold CliExecutor.validate_aws_command
  rw [hsplit]
  simp [hlow, hrest, hany]

/-- The fixed error-message prefix of a failed allow-list check contains
"not allowed" whatever the offending stage text is. -/
theorem notAllowed_message_contains (s : String) :
    pyContains ("Command in pipe is not allowed: " ++ s) "not allowed" = true :=
  pyContains_append_left s "not allowed" (by decide)

/-- Stage checking from a non-zero position: when every stage can be
tokenized and some stage fails the allow-list, the result is an error
whose message contains "not allowed". -/
theorem pipeStagesCheck_not_allowed (awsValidate : String → Except String Unit) :
    ∀ (l : List String) (i : Nat), i ≠ 0 →
    (∀ s ∈ l, s ≠ "") →
    (∀ s ∈ l, ∃ b, Tools.validate_unix_command s = .ok b) →
    (∃ s ∈ l, Tools.validate_unix_command s = .ok false) →
    errContains (Security.pipeStagesCheck awsValidate l i) "not allowed" = true := by
  intro l
  induction l with
  | nil =>
    intro i _ _ _ hbad
    obtain ⟨s, hs, _⟩ := hbad
    exact absurd hs (List.not_mem_nil s)
  | cons s t ih =>
    intro i hi hne hok hbad
    have hsne : s ≠ "" := hne s (List.mem_cons_self s t)
    obtain ⟨b, hb⟩ := hok s (List.mem_cons_self s t)
    unfold Security.pipeStagesCheck
    rw [if_neg hsne, if_neg hi, hb]
    cases b with
    | false =>
      unfold errContains
      exact notAllowed_message_contains s
    | true =>
      apply ih (i + 1) (Nat.succ_ne_zero i)
      · intro x hx; exact hne x (List.mem_cons_of_mem s hx)
      · intro x hx; exact hok x (List.mem_cons_of_mem s hx)
      · obtain ⟨x, hx, hfx⟩ := hbad
        rcases List.mem_cons.mp hx with hxe | hxt
        · rw [hxe] at hfx
          rw [hfx] at hb
          cases hb
        · exact ⟨x, hxt, hfx⟩

/-- A bad later stage makes pipeline validation reject, whatever the
stage-0 validator decides. -/
theorem pipeStagesCheck_never_ok (awsValidate : String → Except String Unit) :
    ∀ (l : List String) (i : Nat),
    ((i = 0 ∧ ∃ s ∈ l.tail, Tools.validate_unix_command s = .ok false) ∨
      (i ≠ 0 ∧ ∃ s ∈ l, Tools.validate_unix_command s = .ok false)) →
    Security.pipeStagesCheck awsValidate l i ≠ .ok () := by
  intro l
  induction l with
  | nil =>
    intro i h
    rcases h with ⟨_, s, hs, _⟩ | ⟨_, s, hs, _⟩ <;> exact absurd hs (List.not_mem_nil s)
  | cons s t ih =>
    intro i h
    unfold Security.pipeStagesCheck
    by_cases hse : s = ""
    · rw [if_pos hse]; intro hcon; cases hcon
    · rw [if_neg hse]
      by_cases hi : i = 0
      · rw [if_pos hi]
        rcases h with ⟨_, hbad⟩ | ⟨hi', _⟩
        · cases hav : awsValidate s with
          | error e => intro hcon; cases hcon
          | ok u =>
            exact ih (i + 1) (Or.inr ⟨Nat.succ_ne_zero i, hbad⟩)
        · exact absurd hi hi'
      · rw [if_neg hi]
        rcases h with ⟨hi', _⟩ | ⟨_, hbad⟩
        · exact absurd hi' hi
        · cases hu : Tools.validate_unix_command s with
          | error e => intro hcon; cases hcon
          | ok b =>
            cases b with
            | false => intro hcon; cases hcon
            | true =>
              apply ih (i + 1)
              refine Or.inr ⟨Nat.succ_ne_zero i, ?_⟩
              obtain ⟨x, hx, hfx⟩ := hbad
              rcases List.mem_cons.mp hx with hxe | hxt
              · rw [hxe] at hfx; rw [hfx] at hu; cases hu
              · exact ⟨x, hxt, hfx⟩

/-- C4: for a pipeline whose stage 0 is accepted by the single-command
validator and some later stage can be tokenized but its first token is
not in the auxiliary allow-list, `validate_pipe_command` (modelled from
the spec, §4.3; the security module is absent from src/) rejects with a
message containing "not allowed"; moreover the pipeline is rejected
whatever the stage-0 validator decides (second conjunct, quantified over
every stage-0 validator), so stage-0 validity never rescues it.
Validation runs before execution (spec §7: validation errors never reach
process execution), so the offending stage is never run. -/
theorem pipe_stage_not_allowed (awsValidate : String → Except String Unit)
    (pipeCmd s0 : String) (rest : List String)
    (hsplit : Tools.split_pipe_command pipeCmd = s0 :: rest)
    (hs0 : s0 ≠ "") (hval : awsValidate s0 = .ok ())
    (hne : ∀ s ∈ rest, s ≠ "")
    (hok : ∀ s ∈ rest, ∃ b, Tools.validate_unix_command s = .ok b)
    (hbad : ∃ s ∈ rest, Tools.validate_unix_command s = .ok false) :
    errContains (Security.validate_pipe_command awsValidate pipeCmd) "not allowed" = true ∧
    ∀ anyValidate : String → Except String Unit,
      Security.validate_pipe_command anyValidate pipeCmd ≠ .ok () := by
  constructor
  · unfold Security.validate_pipe_command
    rw [hsplit]
    simp only [List.isEmpty_cons, if_neg, Bool.false_eq_true]
    unfold Security.pipeStagesCheck
    rw [if_neg hs0, if_pos rfl, hval]
    exact pipeStagesCheck_not_allowed awsValidate rest 1 (Nat.one_ne_zero) hne hok hbad
  · intro anyValidate
    unfold Security.validate_pipe_command
    rw [hsplit]
    simp only [List.isEmpty_cons, if_neg, Bool.false_eq_true]
    exact pipeStagesCheck_never_ok anyValidate (s0 :: rest) 0 (Or.inl ⟨rfl, hbad⟩)

/-- C4 witness: `pipe_stage_not_allowed` at the pipeline
`"aws s3 ls | sudo"`: stage 0 `"aws s3 ls"` passes the (spec-modelled)
security validator under the C3 configuration, and `"sudo"` is not in
`ALLOWED_UNIX_COMMANDS`. -/
theorem pipe_stage_not_allowed_witness :
    errContains
      (Security.validate_pipe_command
        (Security.validate_aws_command (fun _ => none)
          ⟨[("iam", ["aws iam create-user"])], [("iam", ["aws iam create-user --help"])]⟩)
        "aws s3 ls | sudo") "not allowed" = true ∧
    ∀ anyValidate : String → Except String Unit,
      Security.validate_pipe_command anyValidate "aws s3 ls | sudo" ≠ .ok () :=
  pipe_stage_not_allowed
    (Security.validate_aws_command (fun _ => none)
      ⟨[("iam", ["aws iam create-user"])], [("iam", ["aws iam create-user --help"])]⟩)
    "aws s3 ls | sudo" "aws s3 ls" ["sudo"]
    (by decide) (by decide) (by decide)
    (by decide) (by decide) (by decide)

/-- C10 witness: `case_insensitive_program_case_sensitive_deny` at the
command `"AWS iam create-user --user-name test"`, whose lowercased form
starts with the configured dangerous prefix `"aws iam create-user"`. -/
theorem case_insensitive_program_witness :
    CliExecutor.validate_aws_command "AWS iam create-user --user-name test" = .ok () :=
  case_insensitive_program_case_sensitive_deny "AWS iam create-user --user-name test"
    "AWS" ["iam", "create-user", "--user-name", "test"]
    (by decide) (by decide) (by decide) (by decide) (by decide)

end AwsMcp
